import Mathlib

/-
Verification of the news aggregation module (src/news/news.js).

The module exposes getNews(phrase, callback): it dispatches one NewsAPI query
per configured source, filters each response by a relevance pattern, merges
the per-source results as they settle, and hands the callback the output of
reduceArticles on the merged list.  The embedding below models:

* Article / ResponseEntry records as constructed and consumed by news.js;
* searchForArticlesFromSource's response filtering (news.js:74-91);
* reduceArticles' pass-through guard and nested priority walk (news.js:104-126),
  with the implicit fall-off-the-end `undefined` modelled as `none`;
* getNews's settle-order callback protocol (news.js:22-42): the per-source
  completion callbacks fire in some order (a list of settle events), each
  decrementing `pending`; respond() fires only from the success branch when
  pending reaches zero.

Configuration values (config.sources, config.maxArticlesStorageCap) are
parameters of the embedding; the apiKey startup check is assumed to have
passed.  Timestamps are rationals: `new Date(..).getTime() / 1000` is exact
real division on the epoch-millisecond value.
-/

/-- A configured news source descriptor `{id, name}` (sources.json entries,
used at news.js:57 for the request url and news.js:86 for the display name). -/
structure Source where
  id : String
  name : String
deriving DecidableEq

/-- An article record as pushed by searchForArticlesFromSource
(news.js:83-90).  The pushed object literal has fields title, description,
timestamp, source, link, media and no `id` property; the absent property is
modelled as `id = none` so that reduceArticles' read of `articles[j].id`
(news.js:118) can be expressed. -/
structure Article where
  title : Option String
  description : Option String
  timestamp : ℚ
  source : String
  link : String
  media : Option String
  id : Option String
deriving DecidableEq

/-- A raw entry of the NewsAPI response payload consumed at news.js:74-90.
`publishedAt` is abstracted to its epoch-milliseconds value, i.e. the result
of `new Date(article.publishedAt).getTime()`. -/
structure ResponseEntry where
  title : Option String
  description : Option String
  publishedAt : Int
  url : String
  urlToImage : Option String
deriving DecidableEq

/-- True for an ASCII uppercase letter. -/
def isUpperAZ (c : Char) : Bool :=
  decide ('A' ≤ c) && decide (c ≤ 'Z')

/-- Case-insensitive character equality over ASCII letters. -/
def eqCI (a b : Char) : Bool :=
  a == b
    || (isUpperAZ a && a.toNat + 32 == b.toNat)
    || (isUpperAZ b && b.toNat + 32 == a.toNat)

/-- Case-insensitive check that `needle` occurs at the head of `hay`. -/
def leadsWith : List Char → List Char → Bool
  | [], _ => true
  | _ :: _, [] => false
  | a :: as, b :: bs => eqCI a b && leadsWith as bs

/-- Case-insensitive check that `needle` occurs somewhere inside `hay`. -/
def occursIn (needle : List Char) : List Char → Bool
  | [] => leadsWith needle []
  | b :: bs => leadsWith needle (b :: bs) || occursIn needle bs

/-- Modelled from the spec: `generateFuzzyPattern` lives in
src/utils/news-utils, which is not part of the sources at hand; per spec
§4.1 it builds a relevance predicate from the phrase under which a text
matches when it contains the query phrase (allowing minor variation, here
case-insensitivity), and empty text never matches. -/
def generateFuzzyPattern (phrase : String) : String → Bool :=
  fun text => occursIn phrase.data text.data

/-- Model of the JS test `value && pattern.test(value)` on an optional string
field (news.js:76-79): an absent field (`undefined`) and the empty string are
falsy, short-circuiting the pattern test. -/
def truthyAndTest (pattern : String → Bool) : Option String → Bool
  | none => false
  | some s => !(s == "") && pattern s

/-- Inclusion test of news.js:82: `titleMatches || descriptionMatches`. -/
def includedEntry (pattern : String → Bool) (e : ResponseEntry) : Bool :=
  truthyAndTest pattern e.title || truthyAndTest pattern e.description

/-- The object literal pushed at news.js:84-90: timestamp is
`new Date(article.publishedAt).getTime() / 1000`, exact division of the
epoch-millisecond value; the `source` field is the display name; no `id`
property is set. -/
def mkArticle (source : Source) (e : ResponseEntry) : Article :=
  { title := e.title
    description := e.description
    timestamp := (e.publishedAt : ℚ) / 1000
    source := source.name
    link := e.url
    media := e.urlToImage
    id := none }

/-- The response-filtering loop of searchForArticlesFromSource
(news.js:74-91): each payload entry is pushed exactly when its title or
description is truthy and matches the pattern. -/
def searchForArticlesFromSource (pattern : String → Bool) (source : Source) :
    List ResponseEntry → List Article
  | [] => []
  | e :: rest =>
    if includedEntry pattern e then
      mkArticle source e :: searchForArticlesFromSource pattern source rest
    else
      searchForArticlesFromSource pattern source rest

/-- Inner loop of reduceArticles (news.js:115-124): scans the remaining
articles for priority entry `p`, pushing each article whose `id` equals `p`
and checking `count === cap` after every iteration.  `Sum.inl r` models the
early `return finalArticles`; `Sum.inr (count, fin)` is the state handed to
the next priority entry when the scan ran to completion. -/
def scanForSource (cap : Nat) (p : String) :
    List Article → Nat → List Article → (List Article) ⊕ (Nat × List Article)
  | [], count, fin => Sum.inr (count, fin)
  | a :: rest, count, fin =>
    if a.id = some p then
      if count + 1 = cap then Sum.inl (fin ++ [a])
      else scanForSource cap p rest (count + 1) (fin ++ [a])
    else
      if count = cap then Sum.inl fin
      else scanForSource cap p rest count fin

/-- Outer loop of reduceArticles (news.js:113-125): one scan per priority
entry; if both loops run to completion, the JS function falls off the end
without a return statement, i.e. evaluates to `undefined` — modelled as
`none`. -/
def priorityWalk (cap : Nat) (articles : List Article) :
    List String → Nat → List Article → Option (List Article)
  | [], _, _ => none
  | p :: ps, count, fin =>
    match scanForSource cap p articles count fin with
    | Sum.inl r => some r
    | Sum.inr st => priorityWalk cap articles ps st.1 st.2

/-- reduceArticles (news.js:104-126), with config.sources (the priority list)
and maxArticles = config.maxArticlesStorageCap (the cap) as parameters.  The
result is `Option (List Article)`: `none` is the implicit `undefined` of the
missing final return. -/
def reduceArticles (articles : List Article) (priority : List String)
    (cap : Nat) : Option (List Article) :=
  if articles.length ≤ cap then some articles
  else priorityWalk cap articles priority 0 []

/-- Outcome of one per-source query as delivered to the completion callback
at news.js:28: either an error or the filtered article list. -/
inductive QueryOutcome where
  | ok (articles : List Article)
  | failure (error : String)
deriving DecidableEq

/-- One `console.error` record of news.js:31: source identity plus cause. -/
structure QueryLog where
  source : Source
  error : String
deriving DecidableEq

/-- The mutable state of one getNews run (news.js:22-24): the merged article
list, the pending-query counter, the failure log, and the list of payloads
the final callback has been invoked with (each payload is the reduceArticles
result, which may be `undefined`). -/
structure GetNewsState where
  articles : List Article
  pending : Nat
  log : List QueryLog
  responses : List (Option (List Article))
deriving DecidableEq

/-- One settle event (news.js:28-37): the completion callback for `ev.1`
fires with outcome `ev.2`.  It decrements pending first; on error it logs
and returns — without the pending check; on success it concatenates the
response and calls respond() exactly when pending reached zero. -/
def settle (priority : List String) (cap : Nat) (s : GetNewsState)
    (ev : Source × QueryOutcome) : GetNewsState :=
  match ev.2 with
  | QueryOutcome.failure e =>
    { s with pending := s.pending - 1, log := s.log ++ [⟨ev.1, e⟩] }
  | QueryOutcome.ok resp =>
    { s with
      pending := s.pending - 1
      articles := s.articles ++ resp
      responses :=
        if s.pending - 1 = 0 then
          s.responses ++ [reduceArticles (s.articles ++ resp) priority cap]
        else s.responses }

/-- getNews (news.js:17-42) on the happy path past the apiKey check: one
query is dispatched per source and each settles exactly once; `events` is
the settle-ordered list of (source, outcome) pairs, and pending starts at
the number of dispatched queries. -/
def getNews (priority : List String) (cap : Nat)
    (events : List (Source × QueryOutcome)) : GetNewsState :=
  events.foldl (settle priority cap)
    { articles := [], pending := events.length, log := [], responses := [] }

/-- Follows the spec's words (§4.3): the payload a successful query
contributes to the merged list; a failed query contributes nothing. -/
def specSuccessPayload : Source × QueryOutcome → Option (List Article)
  | (_, QueryOutcome.ok r) => some r
  | (_, QueryOutcome.failure _) => none

/-- Follows the spec's words (§4.3): the log record of a failed query,
source identity plus cause; a successful query logs nothing. -/
def specFailureRecord : Source × QueryOutcome → Option QueryLog
  | (_, QueryOutcome.ok _) => none
  | (src, QueryOutcome.failure e) => some ⟨src, e⟩

/-- Follows the spec's words (§4.2/§8): a field satisfies the predicate when
it is present and the predicate holds of its text; an absent field counts as
non-matching. -/
def specFieldSatisfies (pattern : String → Bool) : Option String → Bool
  | none => false
  | some s => pattern s

/- Concrete fixtures used by counterexamples and witnesses. -/

/-- Fixture: source A of the end-to-end scenario. -/
def srcA : Source := ⟨"a-id", "A"⟩

/-- Fixture: source B of the end-to-end scenario. -/
def srcB : Source := ⟨"b-id", "B"⟩

/-- Fixture: source C of the end-to-end scenario. -/
def srcC : Source := ⟨"c-id", "C"⟩

/-- Fixture: a response entry whose title matches the phrase "election". -/
def entryA1 : ResponseEntry :=
  ⟨some "Election results announced", none, 1600000000500, "http://a/1", none⟩

/-- Fixture: a second response entry whose title matches "election". -/
def entryA2 : ResponseEntry :=
  ⟨some "Election polls open", none, 1600000001000, "http://a/2", none⟩

/-- Fixture: a response entry whose description matches "election". -/
def entryB1 : ResponseEntry :=
  ⟨none, some "The election is near", 1600000002000, "http://b/1", none⟩

/-- Fixture: a response entry matching "election" on neither field. -/
def entryWeather : ResponseEntry :=
  ⟨some "Weather today", some "Sunny", 1600000003000, "http://w/1", none⟩

/-- Fixture: a pipeline-shaped article (source display name set, no id). -/
def artPlain1 : Article := ⟨some "p one", none, 0, "A", "http://p/1", none, none⟩

/-- Fixture: a second pipeline-shaped article. -/
def artPlain2 : Article := ⟨some "p two", none, 0, "A", "http://p/2", none, none⟩

/-- Fixture: an article carrying an id equal to a priority entry. -/
def artX1 : Article := ⟨some "x one", none, 0, "X", "http://x/1", none, some "x-id"⟩

/-- Fixture: a second article carrying the same id. -/
def artX2 : Article := ⟨some "x two", none, 0, "X", "http://x/2", none, some "x-id"⟩

/- Helper lemmas about scanForSource and priorityWalk. -/

/-- If the inner scan returns early, the returned list has length exactly
`cap`, provided the running count equals the accumulator's length. -/
lemma scan_inl_length (cap : Nat) (p : String) :
    ∀ (l : List Article) (count : Nat) (fin r : List Article),
      count = fin.length → scanForSource cap p l count fin = Sum.inl r →
      r.length = cap := by
  intro l
  induction l with
  | nil =>
    intro count fin r _ heq
    simp [scanForSource] at heq
  | cons a rest ih =>
    intro count fin r h heq
    by_cases hid : a.id = some p
    · by_cases hc : count + 1 = cap
      · simp [scanForSource, hid, hc] at heq
        subst heq
        simp [← h, hc]
      · simp only [scanForSource, if_pos hid, if_neg hc] at heq
        exact ih (count + 1) (fin ++ [a]) r (by simp [h]) heq
    · by_cases hc : count = cap
      · simp [scanForSource, hid, hc] at heq
        subst heq
        omega
      · simp only [scanForSource, if_neg hid, if_neg hc] at heq
        exact ih count fin r h heq

/-- If the inner scan runs to completion, the returned count still equals the
accumulator's length. -/
lemma scan_inr_invariant (cap : Nat) (p : String) :
    ∀ (l : List Article) (count : Nat) (fin : List Article) (c : Nat)
      (f : List Article),
      count = fin.length → scanForSource cap p l count fin = Sum.inr (c, f) →
      c = f.length := by
  intro l
  induction l with
  | nil =>
    intro count fin c f h heq
    simp [scanForSource] at heq
    rw [← heq.1, ← heq.2]
    exact h
  | cons a rest ih =>
    intro count fin c f h heq
    by_cases hid : a.id = some p
    · by_cases hc : count + 1 = cap
      · simp [scanForSource, hid, hc] at heq
      · simp only [scanForSource, if_pos hid, if_neg hc] at heq
        exact ih (count + 1) (fin ++ [a]) c f (by simp [h]) heq
    · by_cases hc : count = cap
      · simp [scanForSource, hid, hc] at heq
      · simp only [scanForSource, if_neg hid, if_neg hc] at heq
        exact ih count fin c f h heq

/-- A priority walk that produces a list produces one of length exactly
`cap`, provided the running count equals the accumulator's length. -/
lemma walk_some_length (cap : Nat) (articles : List Article) :
    ∀ (ps : List String) (count : Nat) (fin l : List Article),
      count = fin.length → priorityWalk cap articles ps count fin = some l →
      l.length = cap := by
  intro ps
  induction ps with
  | nil =>
    intro count fin l _ heq
    simp [priorityWalk] at heq
  | cons p rest ih =>
    intro count fin l h heq
    cases hs : scanForSource cap p articles count fin with
    | inl r =>
      rw [priorityWalk, hs] at heq
      simp only [Option.some.injEq] at heq
      rw [← heq]
      exact scan_inl_length cap p articles count fin r h hs
    | inr st =>
      rw [priorityWalk, hs] at heq
      exact ih st.1 st.2 l
        (scan_inr_invariant cap p articles count fin st.1 st.2 h
          (by rw [hs])) heq

/-- A scan over articles none of which carries an id never pushes and never
fires the equality check as long as the count differs from the cap. -/
lemma scan_nomatch (cap : Nat) (p : String) :
    ∀ (l : List Article) (count : Nat) (fin : List Article),
      (∀ a ∈ l, a.id = none) → count ≠ cap →
      scanForSource cap p l count fin = Sum.inr (count, fin) := by
  intro l
  induction l with
  | nil =>
    intro count fin _ _
    rfl
  | cons a rest ih =>
    intro count fin hids hne
    have hid : ¬ (a.id = some p) := by
      rw [hids a (List.mem_cons_self a rest)]
      simp
    rw [scanForSource, if_neg hid, if_neg hne]
    exact ih count fin (fun x hx => hids x (List.mem_cons_of_mem a hx)) hne

/-- A priority walk over articles none of which carries an id produces no
list when the count differs from the cap. -/
lemma walk_nomatch (cap : Nat) (articles : List Article)
    (hids : ∀ a ∈ articles, a.id = none) :
    ∀ (ps : List String) (count : Nat) (fin : List Article), count ≠ cap →
      priorityWalk cap articles ps count fin = none := by
  intro ps
  induction ps with
  | nil =>
    intro count fin _
    rfl
  | cons p rest ih =>
    intro count fin hne
    rw [priorityWalk, scan_nomatch cap p articles count fin hids hne]
    exact ih count fin hne

/-- With cap zero and a positive running count the check `count === 0` never
fires again, so the scan always runs to completion with a positive count. -/
lemma scan_zero_pos (p : String) :
    ∀ (l : List Article) (count : Nat) (fin : List Article), 0 < count →
      ∃ c f, scanForSource 0 p l count fin = Sum.inr (c, f) ∧ 0 < c := by
  intro l
  induction l with
  | nil =>
    intro count fin h
    exact ⟨count, fin, rfl, h⟩
  | cons a rest ih =>
    intro count fin h
    by_cases hid : a.id = some p
    · rw [scanForSource, if_pos hid, if_neg (Nat.succ_ne_zero count)]
      exact ih (count + 1) (fin ++ [a]) (Nat.succ_pos count)
    · rw [scanForSource, if_neg hid, if_neg (Nat.pos_iff_ne_zero.mp h)]
      exact ih count fin h

/-- With cap zero and a positive running count the priority walk produces no
list. -/
lemma walk_zero_pos (articles : List Article) :
    ∀ (ps : List String) (count : Nat) (fin : List Article), 0 < count →
      priorityWalk 0 articles ps count fin = none := by
  intro ps
  induction ps with
  | nil =>
    intro count fin _
    rfl
  | cons p rest ih =>
    intro count fin h
    obtain ⟨c, f, hs, hc⟩ := scan_zero_pos p articles count fin h
    rw [priorityWalk, hs]
    exact ih c f hc

/-- Every article in a Source Query's output comes from an included payload
entry, via mkArticle. -/
lemma mem_search (pattern : String → Bool) (src : Source) :
    ∀ (entries : List ResponseEntry) (a : Article),
      a ∈ searchForArticlesFromSource pattern src entries →
      ∃ e, e ∈ entries ∧ includedEntry pattern e = true ∧ a = mkArticle src e := by
  intro entries
  induction entries with
  | nil =>
    intro a ha
    simp [searchForArticlesFromSource] at ha
  | cons e rest ih =>
    intro a ha
    rw [searchForArticlesFromSource] at ha
    by_cases hinc : includedEntry pattern e
    · rw [if_pos hinc] at ha
      rcases List.mem_cons.mp ha with h | h
      · exact ⟨e, List.mem_cons_self e rest, hinc, h⟩
      · obtain ⟨x, hx, hincx, hax⟩ := ih a h
        exact ⟨x, List.mem_cons_of_mem e hx, hincx, hax⟩
    · rw [if_neg hinc] at ha
      obtain ⟨x, hx, hincx, hax⟩ := ih a ha
      exact ⟨x, List.mem_cons_of_mem e hx, hincx, hax⟩

/-- No article produced by searchForArticlesFromSource carries an id: the
pushed object literal (news.js:84-90) has no id property. -/
lemma search_id_none (pattern : String → Bool) (src : Source)
    (entries : List ResponseEntry) :
    ∀ a ∈ searchForArticlesFromSource pattern src entries, a.id = none := by
  intro a ha
  obtain ⟨e, _, _, hae⟩ := mem_search pattern src entries a ha
  rw [hae]
  rfl

/-- For a predicate that rejects the empty string, the JS truthiness guard
coincides with the spec-side field test. -/
lemma truthy_eq_spec (pattern : String → Bool) (h : pattern "" = false) :
    ∀ t : Option String, truthyAndTest pattern t = specFieldSatisfies pattern t := by
  intro t
  cases t with
  | none => rfl
  | some s =>
    by_cases hs : s = ""
    · rw [hs]
      simp [truthyAndTest, specFieldSatisfies, h]
    · simp [truthyAndTest, specFieldSatisfies, hs]

/-- Folding the settle callback over any event list: the merged article list
extends the starting one by the successful payloads in settle order, and the
log extends the starting one by one record per failure. -/
lemma settle_foldl (priority : List String) (cap : Nat) :
    ∀ (events : List (Source × QueryOutcome)) (s : GetNewsState),
      (List.foldl (settle priority cap) s events).articles =
        s.articles ++ (events.filterMap specSuccessPayload).flatten ∧
      (List.foldl (settle priority cap) s events).log =
        s.log ++ events.filterMap specFailureRecord := by
  intro events
  induction events with
  | nil =>
    intro s
    simp
  | cons ev rest ih =>
    intro s
    obtain ⟨src, out⟩ := ev
    cases out with
    | ok r =>
      have h := ih (settle priority cap s (src, QueryOutcome.ok r))
      constructor
      · rw [List.foldl_cons, h.1]
        simp [settle, specSuccessPayload]
      · rw [List.foldl_cons, h.2]
        simp [settle, specFailureRecord]
    | failure e =>
      have h := ih (settle priority cap s (src, QueryOutcome.failure e))
      constructor
      · rw [List.foldl_cons, h.1]
        simp [settle, specSuccessPayload]
      · rw [List.foldl_cons, h.2]
        simp [settle, specFailureRecord]

/-- Claim C1 is false on the code (code bug): with two dispatched queries
settling as success then failure, every query has settled (pending = 0) yet
the callback was never invoked.  The error branch of the completion callback
(news.js:30-33) returns before the `if (!pending) respond()` check, so
whenever the last-settling query fails, respond() never runs and the caller
never receives a result. -/
theorem claim_C1 :
    (getNews [srcB.id, srcA.id] 2
      [(srcA, QueryOutcome.ok [artPlain1]),
       (srcB, QueryOutcome.failure "socket hang up")]).pending = 0 ∧
    (getNews [srcB.id, srcA.id] 2
      [(srcA, QueryOutcome.ok [artPlain1]),
       (srcB, QueryOutcome.failure "socket hang up")]).responses = [] :=
  ⟨rfl, rfl⟩

/-- Claim C4 is false on the code (code bug): with zero configured sources
there are no settle events, yet the callback is never invoked with the empty
list — `sources.forEach` (news.js:27) dispatches nothing and respond() is
only ever called from inside a query completion callback, so getNews returns
without ever calling back. -/
theorem claim_C4 :
    (getNews [srcA.id] 2 []).pending = 0 ∧
    (getNews [srcA.id] 2 []).responses = [] :=
  ⟨rfl, rfl⟩

/-- Claim C3: for every settle order and outcome assignment, the merged list
is exactly the concatenation of the successful queries' article lists in
settle order (failed queries excluded), and the failure log records exactly
the failed queries with source identity and cause; the fold never aborts and
no error value reaches the caller. -/
theorem claim_C3 :
    ∀ (priority : List String) (cap : Nat)
      (events : List (Source × QueryOutcome)),
      (getNews priority cap events).articles =
        (events.filterMap specSuccessPayload).flatten ∧
      (getNews priority cap events).log =
        events.filterMap specFailureRecord := by
  intro priority cap events
  have h := settle_foldl priority cap events
    { articles := [], pending := events.length, log := [], responses := [] }
  simpa [getNews] using h

/-- Claim C6: whenever the articles list is no longer than the cap,
reduceArticles returns it unchanged (news.js:105-107). -/
theorem claim_C6 :
    ∀ (articles : List Article) (priority : List String) (cap : Nat),
      articles.length ≤ cap →
      reduceArticles articles priority cap = some articles := by
  intro articles priority cap h
  rw [reduceArticles, if_pos h]

/-- Witness for claim C6 at a concrete input. -/
theorem claim_C6_witness :
    reduceArticles [artPlain1] [] 3 = some [artPlain1] :=
  claim_C6 [artPlain1] [] 3 (by decide)

/-- Counterexample to claim C5 as stated: two articles, cap 1, empty
priority list — reduceArticles produces no list at all (the JS function
falls off both loops and evaluates to `undefined`), rather than a list of
length at most 1. -/
theorem claim_C5_counterexample :
    reduceArticles [artPlain1, artPlain2] [] 1 = none := by decide

/-- Claim C5 as amended: whenever reduceArticles does return a list, its
length is at most the cap, and if the input was longer than the cap the
returned list has length exactly the cap (the truncation branch returns only
upon reaching it). -/
theorem claim_C5 :
    ∀ (articles : List Article) (priority : List String) (cap : Nat)
      (l : List Article),
      reduceArticles articles priority cap = some l →
      l.length ≤ cap ∧ (cap < articles.length → l.length = cap) := by
  intro articles priority cap l h
  by_cases hg : articles.length ≤ cap
  · rw [reduceArticles, if_pos hg] at h
    simp only [Option.some.injEq] at h
    rw [← h]
    exact ⟨hg, fun hlt => absurd hg (not_le.mpr hlt)⟩
  · rw [reduceArticles, if_neg hg] at h
    have hl := walk_some_length cap articles priority 0 [] l rfl h
    exact ⟨le_of_eq hl, fun _ => hl⟩

/-- Witness for the amended claim C5 at a concrete truncating input. -/
theorem claim_C5_witness :
    [artX1, artX2].length ≤ 2 ∧
    (2 < [artX1, artX2, artPlain1].length → [artX1, artX2].length = 2) :=
  claim_C5 [artX1, artX2, artPlain1] ["x-id"] 2 [artX1, artX2] (by decide)

/-- Counterexample to claim C7 as stated: with cap 0, a non-empty articles
list and an empty priority list, reduceArticles does not return an empty
list — the outer loop body never runs, so the function falls off the end
and evaluates to `undefined`. -/
theorem claim_C7_counterexample :
    ¬ (reduceArticles [artPlain1] [] 0 = some []) := by decide

/-- Claim C7 as amended: with cap 0, reduceArticles returns the empty list
when the articles list is empty (pass-through), and when both lists are
non-empty and the first article's id differs from the first priority entry
(the `count === cap` check fires at the end of the first inner iteration);
with an empty priority list, or when the first article's id equals the first
priority entry, it instead produces no list at all. -/
theorem claim_C7 :
    (∀ priority : List String, reduceArticles [] priority 0 = some []) ∧
    (∀ (a : Article) (arts : List Article) (p : String) (ps : List String),
      a.id ≠ some p → reduceArticles (a :: arts) (p :: ps) 0 = some []) ∧
    (∀ (a : Article) (arts : List Article),
      reduceArticles (a :: arts) [] 0 = none) ∧
    (∀ (a : Article) (arts : List Article) (p : String) (ps : List String),
      a.id = some p → reduceArticles (a :: arts) (p :: ps) 0 = none) := by
  refine ⟨?_, ?_, ?_, ?_⟩
  · intro priority
    rw [reduceArticles, if_pos (by simp : ([] : List Article).length ≤ 0)]
  · intro a arts p ps hne
    rw [reduceArticles, if_neg (by simp), priorityWalk, scanForSource,
      if_neg hne, if_pos rfl]
  · intro a arts
    rw [reduceArticles, if_neg (by simp)]
    rfl
  · intro a arts p ps hid
    have hscan : scanForSource 0 p (a :: arts) 0 [] =
        scanForSource 0 p arts 1 [a] := by
      simp [scanForSource, hid]
    obtain ⟨c, f, hs, hc⟩ := scan_zero_pos p arts 1 [a] Nat.one_pos
    rw [reduceArticles, if_neg (by simp), priorityWalk, hscan, hs]
    exact walk_zero_pos (a :: arts) ps c f hc

/-- Witness for the amended claim C7 at a concrete input. -/
theorem claim_C7_witness :
    reduceArticles [artPlain1] ["x-id"] 0 = some [] :=
  claim_C7.2.1 artPlain1 [] "x-id" [] (by decide)

/-- Claim C2 is false on the code (code bug): in the spec's end-to-end
scenario — priority [B, A, C] by source id, cap 2, source A contributing two
matching articles, source B one, source C failing (hence absent from the
merged list) — reduceArticles does not return one B article followed by one
A article.  It compares the absent `id` property of pipeline articles
(which carry only `source`, the display name) against the priority ids
(news.js:118), so nothing ever matches, the cap is never reached, and the
function falls off both loops producing no list. -/
theorem claim_C2 :
    (searchForArticlesFromSource (generateFuzzyPattern "election") srcA
        [entryA1, entryA2]).length = 2 ∧
    (searchForArticlesFromSource (generateFuzzyPattern "election") srcB
        [entryB1]).length = 1 ∧
    reduceArticles
        (searchForArticlesFromSource (generateFuzzyPattern "election") srcA
            [entryA1, entryA2] ++
          searchForArticlesFromSource (generateFuzzyPattern "election") srcB
            [entryB1])
        [srcB.id, srcA.id, srcC.id] 2 = none := by
  have h1 : includedEntry (generateFuzzyPattern "election") entryA1 = true := by
    decide
  have h2 : includedEntry (generateFuzzyPattern "election") entryA2 = true := by
    decide
  have h3 : includedEntry (generateFuzzyPattern "election") entryB1 = true := by
    decide
  have hA : searchForArticlesFromSource (generateFuzzyPattern "election") srcA
      [entryA1, entryA2] = [mkArticle srcA entryA1, mkArticle srcA entryA2] := by
    simp [searchForArticlesFromSource, h1, h2]
  have hB : searchForArticlesFromSource (generateFuzzyPattern "election") srcB
      [entryB1] = [mkArticle srcB entryB1] := by
    simp [searchForArticlesFromSource, h3]
  refine ⟨by rw [hA]; rfl, by rw [hB]; rfl, ?_⟩
  rw [hA, hB]
  have hids : ∀ a ∈ [mkArticle srcA entryA1, mkArticle srcA entryA2] ++
      [mkArticle srcB entryB1], a.id = none := by
    intro a ha
    simp only [List.mem_append, List.mem_cons, List.not_mem_nil, or_false] at ha
    rcases ha with (h | h) | h <;> rw [h] <;> rfl
  rw [reduceArticles, if_neg (by simp)]
  exact walk_nomatch 2 _ hids [srcB.id, srcA.id, srcC.id] 0 [] (by decide)

/-- Claim C8: for any predicate rejecting empty text, a payload entry is
included exactly when its title or its description satisfies the predicate,
an absent field counting as non-matching (no exception arises: the embedding
is total); every article of the candidate set satisfies the code's own field
test on title or description; and for the phrase "election", the entry
titled "Election results announced" is included while the entry titled
"Weather today" with description "Sunny" is excluded. -/
theorem claim_C8 :
    (∀ (pattern : String → Bool), pattern "" = false →
      ∀ e : ResponseEntry,
        includedEntry pattern e =
          (specFieldSatisfies pattern e.title ||
            specFieldSatisfies pattern e.description)) ∧
    (∀ (pattern : String → Bool) (src : Source)
      (entries : List ResponseEntry) (a : Article),
      a ∈ searchForArticlesFromSource pattern src entries →
      truthyAndTest pattern a.title = true ∨
        truthyAndTest pattern a.description = true) ∧
    includedEntry (generateFuzzyPattern "election") entryA1 = true ∧
    includedEntry (generateFuzzyPattern "election") entryWeather = false := by
  refine ⟨?_, ?_, by decide, by decide⟩
  · intro pattern h e
    rw [includedEntry, truthy_eq_spec pattern h, truthy_eq_spec pattern h]
  · intro pattern src entries a ha
    obtain ⟨e, _, hinc, hae⟩ := mem_search pattern src entries a ha
    rw [hae]
    show truthyAndTest pattern (mkArticle src e).title = true ∨
      truthyAndTest pattern (mkArticle src e).description = true
    simpa [includedEntry, mkArticle] using hinc

/-- Witness for claim C8: the article built from entryB1 satisfies the test
on one of its fields, via the candidate-set conjunct at a concrete input. -/
theorem claim_C8_witness :
    truthyAndTest (generateFuzzyPattern "election")
        (mkArticle srcB entryB1).title = true ∨
    truthyAndTest (generateFuzzyPattern "election")
        (mkArticle srcB entryB1).description = true := by
  apply claim_C8.2.1 (generateFuzzyPattern "election") srcB [entryB1]
  have h3 : includedEntry (generateFuzzyPattern "election") entryB1 = true := by
    decide
  simp [searchForArticlesFromSource, h3]

/-- Claim C9: every article of a Source Query's output stores as timestamp
the originating entry's epoch-millisecond value divided by 1000 as exact
rational division — multiplying back by 1000 recovers the milliseconds, so
no truncation or rounding occurs — and epoch value 1600000000500 yields
timestamp 1600000000.5. -/
theorem claim_C9 :
    (∀ (pattern : String → Bool) (src : Source)
      (entries : List ResponseEntry) (a : Article),
      a ∈ searchForArticlesFromSource pattern src entries →
      ∃ e, e ∈ entries ∧ a.timestamp = (e.publishedAt : ℚ) / 1000 ∧
        a.timestamp * 1000 = (e.publishedAt : ℚ)) ∧
    (mkArticle srcA entryA1).timestamp = 1600000000.5 := by
  constructor
  · intro pattern src entries a ha
    obtain ⟨e, he, _, hae⟩ := mem_search pattern src entries a ha
    refine ⟨e, he, by rw [hae]; rfl, ?_⟩
    rw [hae]
    show (e.publishedAt : ℚ) / 1000 * 1000 = (e.publishedAt : ℚ)
    exact div_mul_cancel₀ _ (by norm_num)
  · norm_num [mkArticle, entryA1]

/-- Witness for claim C9 at a concrete included entry. -/
theorem claim_C9_witness :
    ∃ e, e ∈ [entryA1] ∧
      (mkArticle srcA entryA1).timestamp = (e.publishedAt : ℚ) / 1000 ∧
      (mkArticle srcA entryA1).timestamp * 1000 = (e.publishedAt : ℚ) := by
  apply claim_C9.1 (generateFuzzyPattern "election") srcA [entryA1]
  have h1 : includedEntry (generateFuzzyPattern "election") entryA1 = true := by
    decide
  simp [searchForArticlesFromSource, h1]

/-- Claim C10: articles constructed by searchForArticlesFromSource carry no
id property, and for any over-cap articles list in which no article carries
an id (so the running count, starting at 0 with a positive cap, never
reaches the cap), reduceArticles runs both loops to completion without a
return statement and produces no list — not the partially collected
finalArticles. -/
theorem claim_C10 :
    (∀ (pattern : String → Bool) (src : Source)
      (entries : List ResponseEntry),
      ∀ a ∈ searchForArticlesFromSource pattern src entries, a.id = none) ∧
    (∀ (articles : List Article) (priority : List String) (cap : Nat),
      0 < cap → cap < articles.length →
      (∀ a ∈ articles, a.id = none) →
      reduceArticles articles priority cap = none) := by
  constructor
  · exact fun pattern src entries => search_id_none pattern src entries
  · intro articles priority cap hcap hlen hids
    rw [reduceArticles, if_neg (not_le.mpr hlen)]
    exact walk_nomatch cap articles hids priority 0 [] (Nat.ne_of_lt hcap)

/-- Witness for claim C10 at a concrete input. -/
theorem claim_C10_witness :
    reduceArticles [artPlain1, artPlain2] ["some-source"] 1 = none :=
  claim_C10.2 [artPlain1, artPlain2] ["some-source"] 1 (by decide) (by decide)
    (by decide)
